import Mathlib

/-!
Verification of the client core of the Traffic Violation Detection System
frontend: the session store (`frontend-clean/src/state/AuthContext`, mirrored
in `src/unnamed/part_005`), the authorization guard (`ProtectedRoute` in
`frontend-clean` and in the `frontend-spa` App), and the violation→challan
reconciliation engine (`syncChallansFromViolations` in
`frontend-clean/src/pages/UserDashboard.jsx`).

JavaScript values that can be either a number or a string (violation ids,
challan `violation_id`) are modelled by `JsId`; the `String(...)` coercion
used by the reconciliation engine is `jsStringOfId`.  Asynchronous request
outcomes are supplied by an oracle `JsId → Bool` (true = the creation
request resolves, false = it rejects).  JavaScript truthiness of an
optional string is `jsTruthyStr` (absent and the empty string are falsy).
-/

/-- Identifier value as it appears in JSON payloads: either a string or an
integer number. -/
inductive JsId where
  | str : String → JsId
  | num : Int → JsId
deriving DecidableEq, Repr

/-- JavaScript `String(x)` coercion on an identifier: strings pass through,
numbers print in decimal. -/
def jsStringOfId : JsId → String
  | .str s => s
  | .num n => toString n

/-- Violation record as consumed by the dashboard (fields the core reads). -/
structure Violation where
  id : JsId
  violation_type : String
deriving DecidableEq, Repr

/-- Challan record as consumed by the dashboard (fields the core reads). -/
structure Challan where
  id : JsId
  violation_id : JsId
  violation_type : String
  status : String
  fine_amount : Int
deriving DecidableEq, Repr

/-- Embedding of `new Set(challans.map((c) => String(c.violation_id)))`:
the stringified violation ids already covered by a challan
(UserDashboard.jsx line 55). -/
def existingViolationIds (challans : List Challan) : List String :=
  challans.map (fun c => jsStringOfId c.violation_id)

/-- Embedding of
`violations.filter((v) => !existingViolationIds.has(String(v.id)))`
(UserDashboard.jsx line 56). -/
def toCreate (violations : List Violation) (challans : List Challan) :
    List Violation :=
  violations.filter
    (fun v => !((existingViolationIds challans).contains (jsStringOfId v.id)))

/-- Observable outcome of one reconciliation pass: the violation ids carried
by the creation requests that were actually issued, in issue order; the
value of the `hasSyncedRef` flag afterwards; and whether the challan list
was re-fetched (`loadChallans`) after the pass. -/
structure SyncResult where
  requests : List JsId
  hasSynced : Bool
  reloaded : Bool
deriving DecidableEq, Repr

/-- Embedding of the `for (const v of toCreate) await api.createChallanFromViolation(...)`
loop inside the `try` block (UserDashboard.jsx lines 59-61).  Requests are
issued strictly sequentially; a rejected request throws, so iteration stops
at the first failure.  Returns the ids issued (the failed request was
issued before it rejected) and whether the loop completed without
throwing. -/
def createLoop (oracle : JsId → Bool) : List Violation → List JsId × Bool
  | [] => ([], true)
  | v :: rest =>
    if oracle v.id then
      ((createLoop oracle rest).1.cons v.id, (createLoop oracle rest).2)
    else
      ([v.id], false)

/-- Embedding of `syncChallansFromViolations` (UserDashboard.jsx lines
52-68).  `vehicleNumber` is the string from the auth context, falsy when
empty; `hasSynced` is `hasSyncedRef.current` on entry.  The `try` block
runs the creation loop, then sets the flag and reloads; the `catch` logs
and returns normally, so an exception inside the loop leaves the flag
unchanged and skips the reload. -/
def syncChallansFromViolations (vehicleNumber : String) (hasSynced : Bool)
    (violations : List Violation) (challans : List Challan)
    (oracle : JsId → Bool) : SyncResult :=
  if vehicleNumber = "" || hasSynced then
    ⟨[], hasSynced, false⟩
  else
    if (toCreate violations challans).isEmpty then
      ⟨[], hasSynced, false⟩
    else
      if (createLoop oracle (toCreate violations challans)).2 then
        ⟨(createLoop oracle (toCreate violations challans)).1, true, true⟩
      else
        ⟨(createLoop oracle (toCreate violations challans)).1, hasSynced, false⟩

/-- Authenticated identity as returned by the backend (`user` object). -/
structure User where
  uid : Int
  name : String
  email : String
  role : String
deriving DecidableEq, Repr

/-- JavaScript truthiness of an optional string: absent and the empty
string are falsy, every other string is truthy. -/
def jsTruthyStr : Option String → Bool
  | none => false
  | some s => !(s = "")

/-- Shape of the parsed persisted record `{accessToken, user, vehicleNumber}`;
each field may be missing in the stored JSON. -/
structure StoredAuth where
  accessToken : Option String
  user : Option User
  vehicleNumber : Option String
deriving DecidableEq, Repr

/-- Raw value stored under the `tv_auth` key: either JSON that parses to a
record, or text on which `JSON.parse` throws. -/
inductive StoredVal where
  | malformed : StoredVal
  | val : StoredAuth → StoredVal
deriving DecidableEq, Repr

/-- Embedding of `readStoredAuth` (AuthContext lines 8-16): a missing key
yields null, a parse failure is caught and yields null, otherwise the
parsed record. -/
def readStoredAuth (ls : Option StoredVal) : Option StoredAuth :=
  match ls with
  | none => none
  | some .malformed => none
  | some (.val a) => some a

/-- Session state held by `AuthProvider`: `accessToken`, `user`,
`vehicleNumber` (initially null, null, ""). -/
structure AuthState where
  accessToken : Option String
  user : Option User
  vehicleNumber : String
deriving DecidableEq, Repr

/-- State at process start: `useState(null)`, `useState(null)`,
`useState("")`. -/
def initialAuthState : AuthState := ⟨none, none, ""⟩

/-- Embedding of the mount effect (AuthContext lines 31-38): read the
stored record; only when `stored?.accessToken && stored?.user` is truthy,
adopt all three fields (`stored.vehicleNumber || ""` defaults the vehicle
number); otherwise leave the state as is. -/
def restoreEffect (ls : Option StoredVal) (st : AuthState) : AuthState :=
  match readStoredAuth ls with
  | none => st
  | some stored =>
    if jsTruthyStr stored.accessToken && stored.user.isSome then
      ⟨stored.accessToken, stored.user, stored.vehicleNumber.getD ""⟩
    else st

/-- Embedding of the persist effect (AuthContext lines 40-46): when
`accessToken && user` is truthy, write `{accessToken, user, vehicleNumber}`
to storage, otherwise remove the record.  The written value fully replaces
any previous record, so the effect is a function of the state alone. -/
def persistEffect (st : AuthState) : Option StoredVal :=
  if jsTruthyStr st.accessToken && st.user.isSome then
    some (.val ⟨st.accessToken, st.user, some st.vehicleNumber⟩)
  else none

/-- Mounting the provider in a fresh process: the restore effect runs
against the initial state, then the persist effect re-derives the stored
record from the resulting state.  Returns the session state and the stored
record after the mount settles. -/
def mount (ls : Option StoredVal) : AuthState × Option StoredVal :=
  (restoreEffect ls initialAuthState, persistEffect (restoreEffect ls initialAuthState))

/-- Payload handed to `login` by the login/registration pages:
`{user, access_token}` from the backend response. -/
structure LoginPayload where
  access_token : String
  user : User
deriving DecidableEq, Repr

/-- Embedding of `login` (AuthContext lines 48-54): set the token and the
user; set the vehicle number only when `opts.vehicleNumber` is truthy. -/
def login (payload : LoginPayload) (optsVehicleNumber : Option String)
    (st : AuthState) : AuthState :=
  ⟨some payload.access_token, some payload.user,
    if jsTruthyStr optsVehicleNumber then optsVehicleNumber.getD ""
    else st.vehicleNumber⟩

/-- Embedding of `logout` (AuthContext lines 56-60): clear all three
fields. -/
def logout (_st : AuthState) : AuthState := ⟨none, none, ""⟩

/-- Session-store operations a client run can perform: a login with some
backend payload, a logout, or a restore from some stored record. -/
inductive AuthOp where
  | loginOp : LoginPayload → Option String → AuthOp
  | logoutOp : AuthOp
  | restoreOp : Option StoredVal → AuthOp
deriving DecidableEq, Repr

/-- One step of the session store. -/
def applyAuthOp (st : AuthState) : AuthOp → AuthState
  | .loginOp p v => login p v st
  | .logoutOp => logout st
  | .restoreOp ls => restoreEffect ls st

/-- Running a sequence of session-store operations from a state. -/
def runAuthOps (st : AuthState) (ops : List AuthOp) : AuthState :=
  ops.foldl applyAuthOp st

/-- Embedding of the derived context value
`isAuthenticated: Boolean(accessToken && user)` (AuthContext line 66). -/
def isAuthenticated (st : AuthState) : Bool :=
  jsTruthyStr st.accessToken && st.user.isSome

/-- Embedding of the derived context value `role: user?.role || "public"`
(AuthContext line 67). -/
def userRole (st : AuthState) : String :=
  match st.user with
  | none => "public"
  | some u => if u.role = "" then "public" else u.role

/-- Guard decision (the rendered outcome of `ProtectedRoute`): the child
view, a redirect to the login page, a redirect to the default/home page, or
the spa guard's loading placeholder. -/
inductive GuardResult where
  | allow
  | redirectLogin
  | redirectHome
  | loadingView
deriving DecidableEq, Repr

/-- Embedding of `ProtectedRoute` in frontend-clean (and frontend):
`allowedRoles` is an optional array (undefined when not passed; an array,
even empty, is truthy). -/
def protectedRouteClean (isAuthenticated : Bool) (role : String)
    (allowedRoles : Option (List String)) : GuardResult :=
  if !isAuthenticated then .redirectLogin
  else
    match allowedRoles with
    | none => .allow
    | some rs => if !(rs.contains role) then .redirectHome else .allow

/-- Embedding of `ProtectedRoute` in the frontend-spa App
(`src/unnamed/part_002` lines 10-30): `allowedRoles` defaults to `[]`;
while loading a placeholder is rendered; with no user, redirect to login;
with a non-empty role list not containing the user's role, redirect
home. -/
def protectedRouteSpa (loading : Bool) (user : Option User)
    (allowedRoles : List String) : GuardResult :=
  if loading then .loadingView
  else
    match user with
    | none => .redirectLogin
    | some u =>
      if allowedRoles.length > 0 && !(allowedRoles.contains u.role) then
        .redirectHome
      else .allow

/-- Embedding of the pay control on a rendered challan card
(UserDashboard.jsx lines 280-287): the button is disabled exactly when the
challan's status is "paid". -/
def payButtonDisabled (c : Challan) : Bool := c.status == "paid"

/-- Clicking the pay control for a rendered challan: a disabled button
ignores the click; an enabled one invokes `handlePay(c.id)`, which issues
the pay request for that challan id. -/
def clickPay (c : Challan) : Option JsId :=
  if payButtonDisabled c then none else some c.id

/-- Modelled from the spec (§4.3 step 2): the `missing` set stated
independently of the implementation, as the violations for which no challan
in the list covers the violation id (comparison after string coercion, the
equality the code applies).  Used to compare the engine's filter against
the spec's description. -/
def missingSpec (violations : List Violation) (challans : List Challan) :
    List Violation :=
  violations.filter
    (fun v => !(challans.any
      (fun c => jsStringOfId c.violation_id == jsStringOfId v.id)))

/-- Concrete violation `v1` from the spec's test scenarios (§8). -/
def violationV1 : Violation := ⟨.str "v1", "no_helmet"⟩

/-- Concrete violation `v2` from the spec's test scenarios (§8). -/
def violationV2 : Violation := ⟨.str "v2", "overspeeding"⟩

/-- Challan covering `v1`, as produced by a successful creation for it. -/
def challanV1 : Challan := ⟨.str "c1", .str "v1", "no_helmet", "unpaid", 500⟩

/-- Challan covering `v2`, as produced by a successful creation for it. -/
def challanV2 : Challan := ⟨.str "c2", .str "v2", "overspeeding", "unpaid", 1000⟩

/-- Outcome oracle under which every creation request resolves. -/
def allRequestsOk : JsId → Bool := fun _ => true

/-- Outcome oracle under which the creation request for `v1` rejects and
every other request resolves. -/
def failV1Oracle : JsId → Bool := fun i => !(i == JsId.str "v1")

/-- Concrete authenticated identity used in witnesses. -/
def userAsha : User := ⟨1, "Asha", "asha@example.com", "public"⟩

lemma contains_existingViolationIds (challans : List Challan) (s : String) :
    (existingViolationIds challans).contains s
      = challans.any (fun c => jsStringOfId c.violation_id == s) := by
  induction challans with
  | nil => rfl
  | cons c cs ih =>
    simp only [existingViolationIds, List.map_cons, List.contains_cons,
      List.any_cons] at *
    rw [ih]
    congr 1
    simp [BEq.comm]

lemma toCreate_eq_missingSpec (violations : List Violation)
    (challans : List Challan) :
    toCreate violations challans = missingSpec violations challans := by
  unfold toCreate missingSpec
  apply List.filter_congr
  intro v _
  rw [contains_existingViolationIds]

lemma createLoop_all_ok (oracle : JsId → Bool) (l : List Violation)
    (h : ∀ v ∈ l, oracle v.id = true) :
    createLoop oracle l = (l.map (fun v => v.id), true) := by
  induction l with
  | nil => rfl
  | cons v rest ih =>
    have hv : oracle v.id = true := h v (by simp)
    have hr := ih (fun w hw => h w (by simp [hw]))
    simp [createLoop, hv, hr]

lemma createLoop_first_fail (oracle : JsId → Bool) (pre : List Violation)
    (x : Violation) (post : List Violation)
    (hpre : ∀ v ∈ pre, oracle v.id = true) (hx : oracle x.id = false) :
    createLoop oracle (pre ++ x :: post)
      = (pre.map (fun v => v.id) ++ [x.id], false) := by
  induction pre with
  | nil => simp [createLoop, hx]
  | cons v rest ih =>
    have hv : oracle v.id = true := hpre v (by simp)
    have hr := ih (fun w hw => hpre w (by simp [hw]))
    simp [createLoop, hv, hr]

/-- C2: with a present (non-empty) vehicle identifier and the flag clear, a
reconciliation pass issues exactly one creation request per violation whose
stringified id is not covered by any challan, in input order (the model's
creation loop is strictly sequential, each request awaited before the
next); and when nothing is missing the pass issues no request and leaves
the flag unchanged, for every outcome oracle. -/
theorem sync_issues_one_request_per_missing_violation
    (vn : String) (violations : List Violation) (challans : List Challan)
    (oracle : JsId → Bool) (hvn : vn ≠ "")
    (hok : ∀ v ∈ missingSpec violations challans, oracle v.id = true) :
    (syncChallansFromViolations vn false violations challans oracle).requests
      = (missingSpec violations challans).map (fun v => v.id)
    ∧ (missingSpec violations challans = [] →
        syncChallansFromViolations vn false violations challans oracle
          = ⟨[], false, false⟩) := by
  unfold syncChallansFromViolations
  rw [toCreate_eq_missingSpec]
  by_cases hm : missingSpec violations challans = []
  · simp [hm, hvn]
  · have hloop := createLoop_all_ok oracle _ hok
    simp [hvn, hm, hloop, List.isEmpty_iff]

/-- Witness for C2 at a concrete input: `v1` already covered, `v2`
missing. -/
theorem sync_issues_one_request_per_missing_violation_witness :
    (syncChallansFromViolations "KA01AB1234" false [violationV1, violationV2]
        [challanV1] allRequestsOk).requests
      = (missingSpec [violationV1, violationV2] [challanV1]).map
          (fun v => v.id) :=
  (sync_issues_one_request_per_missing_violation "KA01AB1234"
    [violationV1, violationV2] [challanV1] allRequestsOk
    (by decide) (by decide)).1

/-- C1 counterexample: with violations `[v1, v2]`, no challans, and the
creation request for `v1` rejecting, the pass does NOT issue the remaining
request for `v2` and does NOT set the "has synced" flag — the `try` block
wraps the whole loop, so the first rejection aborts the rest of the
pass. -/
theorem sync_partial_failure_cex :
    (JsId.str "v2") ∉ (syncChallansFromViolations "KA01AB1234" false
        [violationV1, violationV2] [] failV1Oracle).requests
    ∧ (syncChallansFromViolations "KA01AB1234" false
        [violationV1, violationV2] [] failV1Oracle).hasSynced = false := by
  decide

/-- C1 amended: if the creation request for one missing violation fails,
the remaining creation requests of the pass are NOT issued, the
session-local "has synced" flag is NOT set, and the challan list is not
re-fetched; the failure itself is only logged and never propagated — the
pass returns normally with the issued prefix (up to and including the
failed request) recorded. -/
theorem sync_partial_failure_amended (vn : String)
    (violations : List Violation) (challans : List Challan)
    (oracle : JsId → Bool) (pre post : List Violation) (x : Violation)
    (hvn : vn ≠ "")
    (hsplit : missingSpec violations challans = pre ++ x :: post)
    (hpre : ∀ v ∈ pre, oracle v.id = true) (hx : oracle x.id = false) :
    syncChallansFromViolations vn false violations challans oracle
      = ⟨pre.map (fun v => v.id) ++ [x.id], false, false⟩ := by
  unfold syncChallansFromViolations
  rw [toCreate_eq_missingSpec, hsplit]
  have hloop := createLoop_first_fail oracle pre x post hpre hx
  simp [hvn, hloop]

/-- Witness for the amended C1: the failure at `v1` (first missing) leaves
only `v1`'s request issued, the flag clear and the list unrefreshed. -/
theorem sync_partial_failure_amended_witness :
    syncChallansFromViolations "KA01AB1234" false [violationV1, violationV2]
        [] failV1Oracle = ⟨[JsId.str "v1"], false, false⟩ := by
  have h := sync_partial_failure_amended "KA01AB1234"
    [violationV1, violationV2] [] failV1Oracle [] [violationV2] violationV1
    (by decide) (by decide) (by decide) (by decide)
  simpa using h

/-- C4: reconciliation is idempotent on the spec's §8 scenario — with
violations `[v1, v2]` and no challans, one pass issues exactly the two
creation requests `v1` then `v2` (and sets the flag and reloads); a second
pass run with a clear flag against the resulting challan set
`[c(v1), c(v2)]` issues zero requests and leaves the flag clear. -/
theorem sync_idempotent_concrete :
    syncChallansFromViolations "KA01AB1234" false [violationV1, violationV2]
        [] allRequestsOk
      = ⟨[JsId.str "v1", JsId.str "v2"], true, true⟩
    ∧ syncChallansFromViolations "KA01AB1234" false [violationV1, violationV2]
        [challanV1, challanV2] allRequestsOk
      = ⟨[], false, false⟩ := by
  decide

/-- C9: coverage is decided after coercing both identifiers to strings — a
violation with numeric id `n` and a challan whose `violation_id` is the
string printing of `n` are matched, so the pass issues no creation request
for it and terminates without touching the flag. -/
theorem sync_coerces_ids_to_string (vn : String) (n : Int)
    (vt ct st : String) (cid : JsId) (fa : Int) (oracle : JsId → Bool)
    (hvn : vn ≠ "") :
    syncChallansFromViolations vn false [⟨JsId.num n, vt⟩]
        [⟨cid, JsId.str (toString n), ct, st, fa⟩] oracle
      = ⟨[], false, false⟩ := by
  unfold syncChallansFromViolations toCreate existingViolationIds
  simp [hvn, jsStringOfId]

/-- Witness for C9: numeric violation id `7` against challan
`violation_id = "7"` — no request issued. -/
theorem sync_coerces_ids_to_string_witness :
    syncChallansFromViolations "KA01AB1234" false
        [⟨JsId.num 7, "no_helmet"⟩]
        [⟨JsId.str "c9", JsId.str (toString (7 : Int)), "no_helmet",
          "unpaid", 500⟩] allRequestsOk
      = ⟨[], false, false⟩ :=
  sync_coerces_ids_to_string "KA01AB1234" 7 "no_helmet" "no_helmet"
    "unpaid" (JsId.str "c9") 500 allRequestsOk (by decide)

/-- C3 counterexample: in the frontend-clean guard an explicitly empty
`allowedRoles` array is truthy (`allowedRoles && !allowedRoles.includes(role)`)
and contains no role, so an authenticated session is redirected home — the
claim says an empty set allows any authenticated role. -/
theorem guard_empty_roles_cex :
    protectedRouteClean true "public" (some []) = GuardResult.redirectHome
    ∧ protectedRouteClean true "public" (some [])
        ≠ GuardResult.allow := by
  decide

/-- C3 amended: with identity present, the clean guard allows when
`allowedRoles` is unspecified, allows when the role is a member, and
redirects home when `allowedRoles` is specified and the role is not a
member — which includes the explicitly empty set; the spa guard allows
when its (defaulted) role list is empty or contains the role, and
redirects home when the list is non-empty without the role. -/
theorem guard_identity_present_amended (role : String) (rs : List String)
    (u : User) :
    protectedRouteClean true role none = GuardResult.allow
    ∧ (role ∈ rs →
        protectedRouteClean true role (some rs) = GuardResult.allow)
    ∧ (role ∉ rs →
        protectedRouteClean true role (some rs) = GuardResult.redirectHome)
    ∧ protectedRouteSpa false (some u) [] = GuardResult.allow
    ∧ (u.role ∈ rs →
        protectedRouteSpa false (some u) rs = GuardResult.allow)
    ∧ (rs ≠ [] → u.role ∉ rs →
        protectedRouteSpa false (some u) rs = GuardResult.redirectHome) := by
  refine ⟨rfl, ?_, ?_, rfl, ?_, ?_⟩
  · intro h
    simp only [protectedRouteClean]
    simp [List.elem_iff]
    exact h
  · intro h
    simp only [protectedRouteClean]
    simp [List.elem_iff]
    exact h
  · intro h
    simp only [protectedRouteSpa]
    simp [List.elem_iff]
    intro _
    exact h
  · intro hne h
    have hlen : 0 < rs.length := List.length_pos.mpr hne
    simp only [protectedRouteSpa]
    simp [List.elem_iff, hlen]
    exact h

/-- Witness for the amended C3 at the spec's §8 example: an officer passes
the `["officer"]` gate, a public user is sent home by it. -/
theorem guard_identity_present_amended_witness :
    protectedRouteClean true "officer" (some ["officer"])
      = GuardResult.allow
    ∧ protectedRouteClean true "public" (some ["officer"])
        = GuardResult.redirectHome :=
  ⟨(guard_identity_present_amended "officer" ["officer"] userAsha).2.1
      (by decide),
    (guard_identity_present_amended "public" ["officer"] userAsha).2.2.1
      (by decide)⟩

/-- C7: for every session whose identity is absent — whatever the token
field and vehicle number hold — and every `allowedRoles` value (absent,
empty, or any set), both guards redirect to the login page. -/
theorem guard_absent_identity_redirects_login (tok : Option String)
    (vn : String) (allowedRoles : Option (List String))
    (rs : List String) :
    protectedRouteClean (isAuthenticated ⟨tok, none, vn⟩)
        (userRole ⟨tok, none, vn⟩) allowedRoles = GuardResult.redirectLogin
    ∧ protectedRouteSpa false none rs = GuardResult.redirectLogin := by
  constructor
  · simp [protectedRouteClean, isAuthenticated]
  · simp [protectedRouteSpa]

/-- C5: a malformed persisted record — text on which parsing throws, or a
record missing the credential or the identity field — makes the mount
yield the absent session and leaves the storage purged; no exception
reaches the caller (the parse failure is caught inside `readStoredAuth`,
the model returns normally on every input); a second restore, run on the
purged storage, again yields the absent session. -/
theorem restore_malformed_absent_and_purged (a : StoredAuth)
    (h : a.accessToken = none ∨ a.user = none) :
    mount (some StoredVal.malformed) = (initialAuthState, none)
    ∧ mount (some (StoredVal.val a)) = (initialAuthState, none)
    ∧ mount (mount (some StoredVal.malformed)).2 = (initialAuthState, none)
    ∧ mount (mount (some (StoredVal.val a))).2
        = (initialAuthState, none) := by
  have h0 : mount none = (initialAuthState, none) := rfl
  have h1 : mount (some StoredVal.malformed) = (initialAuthState, none) := rfl
  have h2 : mount (some (StoredVal.val a)) = (initialAuthState, none) := by
    unfold mount restoreEffect readStoredAuth
    rcases h with h | h <;>
      simp [h, jsTruthyStr, persistEffect, initialAuthState]
  refine ⟨h1, h2, ?_, ?_⟩
  · rw [h1]; exact h0
  · rw [h2]; exact h0

/-- Witness for C5: a stored record with the credential field missing is
treated as absent and purged. -/
theorem restore_malformed_absent_and_purged_witness :
    mount (some (StoredVal.val ⟨none, some userAsha, none⟩))
      = (initialAuthState, none) :=
  (restore_malformed_absent_and_purged ⟨none, some userAsha, none⟩
    (Or.inl rfl)).2.1

/-- C6 counterexample: with the empty string as credential, the persist
effect sees a falsy token and removes the record instead of writing it, so
a restore in a fresh process yields the absent session rather than the
identity that was set. -/
theorem roundtrip_empty_credential_cex :
    (mount (persistEffect
        (login ⟨"", userAsha⟩ none initialAuthState))).1.user
      ≠ some userAsha
    ∧ (mount (persistEffect
        (login ⟨"", userAsha⟩ none initialAuthState))).1
      = initialAuthState := by
  decide

/-- C6 amended: for every identity, every non-empty credential string and
every optional vehicle identifier, establish (login) followed by the
persist effect and a restore in a fresh process yields exactly the
identity and credential that were set, and the vehicle identifier that was
set (the empty string when it was absent or empty — the store's
representation of "no declared vehicle"). -/
theorem establish_restore_roundtrip (c : String) (u : User)
    (v : Option String) (hc : c ≠ "") :
    (mount (persistEffect (login ⟨c, u⟩ v initialAuthState))).1
      = ⟨some c, some u, v.getD ""⟩ := by
  unfold mount login persistEffect restoreEffect readStoredAuth
    initialAuthState jsTruthyStr
  rcases v with _ | s
  · simp [hc]
  · by_cases hs : s = "" <;> simp [hc, hs]

/-- Witness for the amended C6 at a concrete token, identity and vehicle
identifier. -/
theorem establish_restore_roundtrip_witness :
    (mount (persistEffect (login ⟨"token-1", userAsha⟩
        (some "KA01AB1234") initialAuthState))).1
      = ⟨some "token-1", some userAsha, "KA01AB1234"⟩ :=
  establish_restore_roundtrip "token-1" userAsha (some "KA01AB1234")
    (by decide)

lemma applyAuthOp_preserves_together (st : AuthState) (op : AuthOp)
    (h : st.accessToken.isSome = st.user.isSome) :
    (applyAuthOp st op).accessToken.isSome
      = (applyAuthOp st op).user.isSome := by
  cases op with
  | loginOp p v => rfl
  | logoutOp => rfl
  | restoreOp ls =>
    show (restoreEffect ls st).accessToken.isSome
      = (restoreEffect ls st).user.isSome
    unfold restoreEffect
    cases readStoredAuth ls with
    | none => exact h
    | some stored =>
      by_cases hcond :
          (jsTruthyStr stored.accessToken && stored.user.isSome) = true
      · have h1 := (Bool.and_eq_true _ _).mp hcond
        have hsa : stored.accessToken.isSome = true := by
          cases hx : stored.accessToken with
          | none => rw [hx] at h1; simp [jsTruthyStr] at h1
          | some s => rfl
        simp [h1.1, h1.2, hsa]
      · simp [hcond, h]

/-- C8: every session state reachable from the initial state by any
sequence of login, logout and restore operations has the credential and
the identity either both present or both absent. -/
theorem credential_identity_set_together (ops : List AuthOp) :
    (runAuthOps initialAuthState ops).accessToken.isSome
      = (runAuthOps initialAuthState ops).user.isSome := by
  suffices h : ∀ st : AuthState, st.accessToken.isSome = st.user.isSome →
      (runAuthOps st ops).accessToken.isSome
        = (runAuthOps st ops).user.isSome by
    exact h initialAuthState rfl
  induction ops with
  | nil => intro st h; exact h
  | cons op rest ih =>
    intro st h
    exact ih _ (applyAuthOp_preserves_together st op h)

/-- C10: the pay control is disabled exactly when the rendered challan's
status is "paid", so a click can invoke `handlePay` — and hence issue a
pay request — only for an unpaid challan, and only with that challan's
id. -/
theorem pay_control_only_for_unpaid (c : Challan) :
    (clickPay c = none ↔ c.status = "paid")
    ∧ ∀ i, clickPay c = some i → i = c.id ∧ c.status ≠ "paid" := by
  unfold clickPay payButtonDisabled
  by_cases h : c.status = "paid" <;> simp [h]

/-- Witness for C10: a paid challan's control swallows the click; an
unpaid one forwards its id to `handlePay`. -/
theorem pay_control_only_for_unpaid_witness :
    clickPay ⟨JsId.str "c1", JsId.str "v1", "no_helmet", "paid", 500⟩
      = none :=
  (pay_control_only_for_unpaid
    ⟨JsId.str "c1", JsId.str "v1", "no_helmet", "paid", 500⟩).1.mpr rfl
